import Mathlib

/-!
Verification of the anathema-playground editor core: a shallow embedding of
the text buffer (`src/text_buffer.rs`), the single-line highlighter, the
blueprint validator (`src/editor.rs`), the `run_code` control flow, and the
frame-channel polling (`src/thread_backend.rs`), together with theorems
settling the specification's claims about them.
-/

namespace Playground

/-- Highlight tags, from `HighlightingStyle` in `src/text_buffer.rs`. -/
inductive HighlightingStyle where
  | none
  | number
  | string
  | hexVal
  | component
  | widget
  | braces
  | comment
  | boolean
deriving DecidableEq, Repr

/-- A styled character, from `Cell(char, HighlightingStyle)` in `src/text_buffer.rs`. -/
structure Cell where
  ch : Char
  hl : HighlightingStyle
deriving DecidableEq, Repr

/-- `impl From<char> for Cell`: a character paired with the `None` style. -/
def Cell.ofChar (c : Char) : Cell := ⟨c, .none⟩

/-- The text buffer state, from `struct TextBuffer` in `src/text_buffer.rs`. -/
structure TextBuffer where
  lines : List (List Cell)
  offset_y : Nat
  cursor_x : Nat
  cursor_y : Nat
  width : Nat
  height : Nat
deriving DecidableEq, Repr

namespace TextBuffer

/-- `TextBuffer::new`: one empty line, cursor and scroll at the origin. -/
def new (width height : Nat) : TextBuffer :=
  { lines := [[]], offset_y := 0, cursor_x := 0, cursor_y := 0
    width := width, height := height }

/-- The loop body of `TextBuffer::from_iter`: a newline starts a fresh line,
any other character is appended to the last line. -/
def fromIterStep (lines : List (List Cell)) (c : Char) : List (List Cell) :=
  if c = '\n' then lines ++ [[]]
  else lines.dropLast ++ [(lines.getLast?.getD []) ++ [Cell.ofChar c]]

/-- `TextBuffer::from_iter`: builds the line list from a character stream,
starting from one empty line. -/
def fromIter (cs : List Char) (width height : Nat) : TextBuffer :=
  { lines := cs.foldl fromIterStep [[]], offset_y := 0, cursor_x := 0, cursor_y := 0
    width := width, height := height }

/-- `TextBuffer::insert_newline`: splits the current line at the cursor,
inserting the remainder as a new following line; the cursor moves to
column 0 of the new line, scrolling if the row leaves the viewport. -/
def insertNewline (tb : TextBuffer) : TextBuffer :=
  let splitOff := match tb.lines[tb.cursor_y + tb.offset_y]? with
    | some line =>
        (tb.lines.set (tb.cursor_y + tb.offset_y) (line.take tb.cursor_x), line.drop tb.cursor_x)
    | Option.none => (tb.lines, [])
  let lines0 := splitOff.1
  let newLine := splitOff.2
  let cursor_y := tb.cursor_y + 1
  if cursor_y ≥ lines0.length then
    let lines := lines0 ++ [newLine]
    let cursor_y := lines.length - 1
    if cursor_y ≥ tb.height then
      { tb with lines := lines, cursor_x := 0
                cursor_y := tb.height - 1, offset_y := cursor_y - tb.height + 1 }
    else
      { tb with lines := lines, cursor_x := 0, cursor_y := cursor_y }
  else
    let lines := lines0.insertIdx (tb.offset_y + cursor_y) newLine
    if cursor_y + tb.offset_y ≥ tb.height then
      { tb with lines := lines, cursor_x := 0
                cursor_y := tb.height - 1, offset_y := cursor_y + tb.offset_y - tb.height + 1 }
    else
      { tb with lines := lines, cursor_x := 0, cursor_y := cursor_y }

/-- `TextBuffer::insert_char`: `'\n'` delegates to `insert_newline`; otherwise
the character goes into the cursor's line (insert before the cursor, or push
at the end), and when the cursor row addresses no line a new one-character
line is pushed and the row/offset pair is normalised. -/
def insertChar (tb : TextBuffer) (c : Char) : TextBuffer :=
  if c = '\n' then tb.insertNewline
  else
    match tb.lines[tb.offset_y + tb.cursor_y]? with
    | some line =>
        if tb.cursor_x < line.length then
          { tb with lines := tb.lines.set (tb.offset_y + tb.cursor_y)
                        (line.insertIdx tb.cursor_x (Cell.ofChar c))
                    cursor_x := tb.cursor_x + 1 }
        else
          { tb with lines := tb.lines.set (tb.offset_y + tb.cursor_y) (line ++ [Cell.ofChar c])
                    cursor_x := line.length + 1 }
    | Option.none =>
        let lines := tb.lines ++ [[Cell.ofChar c]]
        let cursor_y := tb.cursor_y + 1
        let oy1 :=
          if cursor_y + tb.offset_y ≥ lines.length then
            if tb.offset_y ≥ lines.length then lines.length - 1 else tb.offset_y
          else tb.offset_y
        let cy1 :=
          if cursor_y + tb.offset_y ≥ lines.length then lines.length - oy1 - 1 else cursor_y
        if cy1 + oy1 ≥ tb.height then
          { tb with lines := lines, cursor_x := 1
                    cursor_y := tb.height - 1, offset_y := cy1 + oy1 - tb.height + 1 }
        else
          { tb with lines := lines, cursor_x := 1, cursor_y := cy1, offset_y := oy1 }

/-- `TextBuffer::remove_char_before` (backspace): no-op at document start;
at column 0 merges the line into the previous one; otherwise deletes the
character left of the cursor (popping when the column is at or past the end);
with an out-of-range row it renormalises the row/offset pair and snaps the
column to the line end. -/
def removeCharBefore (tb : TextBuffer) : TextBuffer :=
  if tb.cursor_y + tb.offset_y = 0 ∧ tb.cursor_x = 0 then tb
  else
    match tb.lines[tb.cursor_y + tb.offset_y]? with
    | some line =>
        if tb.cursor_x = 0 then
          if tb.cursor_y + tb.offset_y = 0 then tb
          else
            let abs := tb.cursor_y + tb.offset_y
            let lines1 := tb.lines.eraseIdx abs
            let prev := (lines1[abs - 1]?).getD []
            let lines2 := lines1.set (abs - 1) (prev ++ line)
            if tb.cursor_y = 0 then
              { tb with lines := lines2, cursor_x := prev.length, offset_y := tb.offset_y - 1 }
            else
              { tb with lines := lines2, cursor_x := prev.length, cursor_y := tb.cursor_y - 1 }
        else if tb.cursor_x ≥ line.length then
          { tb with lines := tb.lines.set (tb.cursor_y + tb.offset_y) line.dropLast
                    cursor_x := line.dropLast.length }
        else
          { tb with lines := tb.lines.set (tb.cursor_y + tb.offset_y)
                        (line.eraseIdx (tb.cursor_x - 1))
                    cursor_x := tb.cursor_x - 1 }
    | Option.none =>
        let oy1 :=
          if tb.cursor_y + tb.offset_y ≥ tb.lines.length then
            if tb.offset_y ≥ tb.lines.length then tb.lines.length - 1 else tb.offset_y
          else tb.offset_y
        let cy1 :=
          if tb.cursor_y + tb.offset_y ≥ tb.lines.length then tb.lines.length - oy1
          else tb.cursor_y
        let oy2 := if cy1 + oy1 ≥ tb.height then cy1 + oy1 - tb.height + 1 else oy1
        let cy2 := if cy1 + oy1 ≥ tb.height then tb.height - 1 else cy1
        { tb with offset_y := oy2, cursor_y := cy2
                  cursor_x := ((tb.lines[cy2 + oy2]?).getD []).length }

/-- `TextBuffer::move_to_start`: cursor and scroll to the document origin. -/
def moveToStart (tb : TextBuffer) : TextBuffer :=
  { tb with cursor_x := 0, cursor_y := 0, offset_y := 0 }

/-- `TextBuffer::move_to_linestart`: column to 0. -/
def moveToLinestart (tb : TextBuffer) : TextBuffer :=
  { tb with cursor_x := 0 }

/-- `TextBuffer::move_to_end`: cursor to the last line's end, scrolling if the
row leaves the viewport. -/
def moveToEnd (tb : TextBuffer) : TextBuffer :=
  let cursor_y := tb.lines.length - 1
  let cursor_x := ((tb.lines[cursor_y]?).getD []).length
  if cursor_y ≥ tb.height then
    { tb with cursor_x := cursor_x, cursor_y := tb.height - 1
              offset_y := cursor_y - tb.height + 1 }
  else
    { tb with cursor_x := cursor_x, cursor_y := cursor_y }

/-- `TextBuffer::move_to_lineend`: renormalises an out-of-range row, then sets
the column from `lines.get(cursor_y)` (the relative row index, as in the
source). -/
def moveToLineend (tb : TextBuffer) : TextBuffer :=
  if tb.lines.length = 0 then
    { tb with cursor_x := 0, cursor_y := 0, offset_y := 0 }
  else
    let oy1 :=
      if tb.cursor_y + tb.offset_y ≥ tb.lines.length then
        if tb.offset_y ≥ tb.lines.length then tb.lines.length - 1 else tb.offset_y
      else tb.offset_y
    let cy1 :=
      if tb.cursor_y + tb.offset_y ≥ tb.lines.length then tb.lines.length - oy1
      else tb.cursor_y
    { tb with offset_y := oy1, cursor_y := cy1
              cursor_x := ((tb.lines[cy1]?).getD []).length }

/-- `TextBuffer::move_down`: advances the row (scrolling at the bottom edge)
and clamps the column; at the last line it renormalises and sets the column
from `lines.get(cursor_y)` (the relative row index, as in the source). -/
def moveDown (tb : TextBuffer) : TextBuffer :=
  if tb.cursor_y + tb.offset_y + 1 < tb.lines.length then
    let cursor_y := tb.cursor_y + 1
    let oy1 :=
      if cursor_y + tb.offset_y ≥ tb.height then cursor_y + tb.offset_y - tb.height + 1
      else tb.offset_y
    let cy1 := if cursor_y + tb.offset_y ≥ tb.height then tb.height - 1 else cursor_y
    let cursor_x :=
      match (tb.lines[cy1 + oy1]?).map List.length with
      | some len => min tb.cursor_x len
      | Option.none => tb.cursor_x
    { tb with cursor_y := cy1, offset_y := oy1, cursor_x := cursor_x }
  else if tb.lines.length = 0 then
    { tb with cursor_x := 0, cursor_y := 0, offset_y := 0 }
  else
    let oy1 :=
      if tb.cursor_y + tb.offset_y ≥ tb.lines.length then
        if tb.offset_y ≥ tb.lines.length then tb.lines.length - 1 else tb.offset_y
      else tb.offset_y
    let cy1 :=
      if tb.cursor_y + tb.offset_y ≥ tb.lines.length then tb.lines.length - oy1
      else tb.cursor_y
    { tb with offset_y := oy1, cursor_y := cy1
              cursor_x := ((tb.lines[cy1]?).getD []).length }

/-- `TextBuffer::move_right`: renormalises an out-of-range row, then steps the
column right, or wraps to column 0 of the next line via `move_down` at the
line end. -/
def moveRight (tb : TextBuffer) : TextBuffer :=
  let oy1 :=
    if tb.cursor_y + tb.offset_y ≥ tb.lines.length then
      if tb.offset_y ≥ tb.lines.length then tb.lines.length - 1 else tb.offset_y
    else tb.offset_y
  let cy1 :=
    if tb.cursor_y + tb.offset_y ≥ tb.lines.length then tb.lines.length - oy1
    else tb.cursor_y
  let tb1 := { tb with offset_y := oy1, cursor_y := cy1 }
  if tb1.lines.length = 0 then tb1
  else if tb1.cursor_x = ((tb1.lines[tb1.offset_y + tb1.cursor_y]?).getD []).length then
    moveDown { tb1 with cursor_x := 0 }
  else
    { tb1 with cursor_x := tb1.cursor_x + 1 }

/-- `TextBuffer::move_up`: at absolute row 0 only the column resets; otherwise
the row (or, at the viewport top, the scroll offset) decrements and the
column is clamped to the destination line. -/
def moveUp (tb : TextBuffer) : TextBuffer :=
  if tb.cursor_y + tb.offset_y = 0 then
    { tb with cursor_x := 0 }
  else
    let oy1 :=
      if tb.cursor_y + tb.offset_y > tb.lines.length then
        if tb.offset_y ≥ tb.lines.length then tb.lines.length - 1 else tb.offset_y
      else tb.offset_y
    let cy1 :=
      if tb.cursor_y + tb.offset_y > tb.lines.length then tb.lines.length - oy1
      else tb.cursor_y
    let oy2 := if cy1 = 0 then (if oy1 > 0 then oy1 - 1 else oy1) else oy1
    let cy2 := if cy1 = 0 then cy1 else cy1 - 1
    let cursor_x :=
      match (tb.lines[oy2 + cy2]?).map List.length with
      | some len => min tb.cursor_x len
      | Option.none => tb.cursor_x
    { tb with offset_y := oy2, cursor_y := cy2, cursor_x := cursor_x }

/-- `TextBuffer::move_left`: no-op at the document origin; at column 0 moves
to the previous line's end (decrementing row or scroll offset); otherwise the
column decrements. -/
def moveLeft (tb : TextBuffer) : TextBuffer :=
  if tb.cursor_y + tb.offset_y = 0 ∧ tb.cursor_x = 0 then tb
  else if tb.cursor_x = 0 then
    let oy1 :=
      if tb.cursor_y + tb.offset_y > tb.lines.length then
        if tb.offset_y ≥ tb.lines.length then tb.lines.length - 1 else tb.offset_y
      else tb.offset_y
    let cy1 :=
      if tb.cursor_y + tb.offset_y > tb.lines.length then tb.lines.length - oy1
      else tb.cursor_y
    let oy2 := if cy1 = 0 then oy1 - 1 else oy1
    let cy2 := if cy1 = 0 then cy1 else cy1 - 1
    let cursor_x :=
      match (tb.lines[oy2 + cy2]?).map List.length with
      | some len => len
      | Option.none => tb.cursor_x
    { tb with offset_y := oy2, cursor_y := cy2, cursor_x := cursor_x }
  else
    { tb with cursor_x := tb.cursor_x - 1 }

end TextBuffer

/-! ## Widget whitelist (`src/editor.rs`) -/

/-- The fixed widget-name whitelist `VALID_COMPONENTS` from `src/editor.rs`
(lines 157-171): thirteen names. -/
def VALID_COMPONENTS : List String :=
  ["text", "span", "border", "align", "vstack", "hstack", "zstack",
   "expand", "spacer", "position", "overflow", "canvas", "container"]

/-- `src/text_buffer.rs` imports `crate::editor::VALID_WIDGETS`; the editor
module of the provided sources declares this list under the name
`VALID_COMPONENTS` (the claims' source map ties the highlighter's whitelist
to it), so the import resolves to the same thirteen names. -/
def VALID_WIDGETS : List String := VALID_COMPONENTS

/-! ## Single-line highlighter (`TextBuffer::highlight_line`) -/

/-- The lexer state `HighlightState` of `src/text_buffer.rs`. -/
inductive HighlightState where
  | none
  | comment
  | ident
  | component
  | number
  | hex
  | string
deriving DecidableEq, Repr

/-- `matches!(char, 'a'..='z' | 'A'..='Z' | '_' | '|' | '0'..='9')`. -/
def isIdentChar (c : Char) : Bool :=
  ('a' ≤ c && c ≤ 'z') || ('A' ≤ c && c ≤ 'Z') || c = '_' || c = '|' || ('0' ≤ c && c ≤ '9')

/-- `matches!(char, 'a'..='f' | 'A'..='F' | '0'..='9')`. -/
def isHexChar (c : Char) : Bool :=
  ('a' ≤ c && c ≤ 'f') || ('A' ≤ c && c ≤ 'F') || ('0' ≤ c && c ≤ '9')

/-- `matches!(char, '0'..='9' | '.')`. -/
def isNumChar (c : Char) : Bool :=
  ('0' ≤ c && c ≤ '9') || c = '.'

/-- `matches!(char, 'a'..='z' | 'A'..='Z')`. -/
def isLetterChar (c : Char) : Bool :=
  ('a' ≤ c && c ≤ 'z') || ('A' ≤ c && c ≤ 'Z')

/-- The brace characters tagged immediately: `[ ] { } ( )`. -/
def isBraceChar (c : Char) : Bool :=
  c = '[' || c = ']' || c = '\x7b' || c = '\x7d' || c = '(' || c = ')'

/-- Writes `t` to the half-open index range `[a, b)` of the tag list, the
effect of `line[a..b].iter_mut().for_each(|v| v.1 = t)`. -/
def tagRange (tags : List HighlightingStyle) (a b : Nat) (t : HighlightingStyle) :
    List HighlightingStyle :=
  tags.mapIdx fun i s => if a ≤ i ∧ i < b then t else s

/-- The classification applied on leaving `Ident` state: `loop` gets the
Number style, whitelist members the Widget style, `true`/`false` the Boolean
style, anything else is left as is. -/
def applyIdentTags (tags : List HighlightingStyle) (a b : Nat) (cur : String) :
    List HighlightingStyle :=
  if cur = "loop" then tagRange tags a b .number
  else if VALID_WIDGETS.any (fun v => v = cur) then tagRange tags a b .widget
  else if cur = "true" ∨ cur = "false" then tagRange tags a b .boolean
  else tags

/-- The mutable state of the `highlight_line` scan loop. -/
structure HLState where
  chars : List Char
  tags : List HighlightingStyle
  cur : String
  hstate : HighlightState
  started_at : Nat
  current : Nat
  str_is_escape : Bool
  str_starting_quote : Char
deriving Repr

/-- One iteration of the `while current < line.len()` loop of
`highlight_line`: the immediate brace tagging, the state-machine dispatch
(including the tag flush on leaving a state), and — when the state is `None`
afterwards and the string-close branch did not `continue` — the transition
table on `(char, next_char)`. Advances `current` by one. -/
def hlStep (st : HLState) : HLState :=
  let char := st.chars.getD st.current ' '
  let tags0 :=
    if st.hstate ≠ .string ∧ isBraceChar char then st.tags.set st.current .braces
    else st.tags
  let st := { st with tags := tags0 }
  -- the `match highlight_state` block
  let stepped : HLState × Bool :=
    match st.hstate with
    | .comment => ({ st with tags := st.tags.set st.current .comment }, false)
    | .ident =>
        if isIdentChar char then ({ st with cur := st.cur.push char }, false)
        else ({ st with tags := applyIdentTags st.tags st.started_at st.current st.cur
                        cur := "", hstate := .none }, false)
    | .hex =>
        if isHexChar char then (st, false)
        else ({ st with tags := tagRange st.tags st.started_at st.current .hexVal
                        hstate := .none }, false)
    | .none => (st, false)
    | .component =>
        if isIdentChar char then (st, false)
        else ({ st with tags := tagRange st.tags st.started_at st.current .component
                        hstate := .none }, false)
    | .number =>
        if isNumChar char then (st, false)
        else ({ st with tags := tagRange st.tags st.started_at st.current .number
                        hstate := .none }, false)
    | .string =>
        if st.str_is_escape then ({ st with str_is_escape := false }, false)
        else if char = '\\' then ({ st with str_is_escape := true }, false)
        else if char = st.str_starting_quote then
          ({ st with tags := tagRange st.tags st.started_at (st.current + 1) .string
                     hstate := .none }, true)
        else (st, false)
  let st1 := stepped.1
  let skipTransition := stepped.2
  -- the `if highlight_state == None { match (char, next) ... }` block
  let st2 :=
    if skipTransition then st1
    else if st1.hstate = .none then
      let next := st1.chars.getD (st.current + 1) '\x00'
      if char = '@' then
        { st1 with cur := "", started_at := st.current, hstate := .component }
      else if char = '/' ∧ next = '/' then
        { st1 with started_at := st.current, tags := st1.tags.set st.current .comment
                   hstate := .comment }
      else if isNumChar char ∨ (char = '-' ∧ isNumChar next) then
        { st1 with started_at := st.current, hstate := .number }
      else if char = '\'' ∨ char = '"' then
        { st1 with started_at := st.current, hstate := .string, str_starting_quote := char }
      else if char = '#' then
        { st1 with started_at := st.current, hstate := .hex }
      else if isLetterChar char then
        { st1 with started_at := st.current, hstate := .ident, cur := String.mk [char] }
      else st1
    else st1
  { st2 with current := st.current + 1 }

/-- Runs the scan loop until `current` reaches the end of the line; the fuel
is at least the line length, so it never runs out before the loop condition
fails. -/
def hlLoop : Nat → HLState → HLState
  | 0, st => st
  | fuel + 1, st =>
      if st.current < st.chars.length then hlLoop fuel (hlStep st)
      else st

/-- `TextBuffer::highlight_line` as a pure function of one line: tags are
reset to `None`, the scan loop runs, and the still-open state (if any) is
flushed over `[started_at, current)`. -/
def highlightLine (line : List Cell) : List Cell :=
  let chars := line.map Cell.ch
  let st0 : HLState :=
    { chars := chars, tags := List.replicate chars.length .none, cur := ""
      hstate := .none, started_at := 0, current := 0
      str_is_escape := false, str_starting_quote := ' ' }
  let st := hlLoop chars.length st0
  let tags :=
    match st.hstate with
    | .ident => applyIdentTags st.tags st.started_at st.current st.cur
    | .hex => tagRange st.tags st.started_at st.current .hexVal
    | .component => tagRange st.tags st.started_at st.current .component
    | .number => tagRange st.tags st.started_at st.current .number
    | _ => st.tags
  chars.zipWith Cell.mk tags

/-! ## Blueprint validation (`validate_blueprint`, `src/editor.rs`) -/

/-- Modelled from the spec: the compiled template tree produced by the
external engine's `compile` (the `Blueprint` type of the anathema crate is
not part of this repository's sources). Per the spec, validation traverses
component bodies, conditional branches including else-chains, loop bodies,
and plain widget children; each variant carries exactly the children
`validate_blueprint` walks, and a widget node its tag name. -/
inductive Blueprint where
  | component (body : List Blueprint)
  | controlFlow (ifBody : List Blueprint) (elses : List (List Blueprint))
  | forLoop (body : List Blueprint)
  | single (ident : String) (children : List Blueprint)

mutual

/-- Number of nodes of a blueprint (termination measure for the worklist). -/
def bpSize : Blueprint → Nat
  | .component body => 1 + bpListSize body
  | .controlFlow ifBody elses => 1 + bpListSize ifBody + bpListListSize elses
  | .forLoop body => 1 + bpListSize body
  | .single _ children => 1 + bpListSize children

/-- Total node count of a list of blueprints. -/
def bpListSize : List Blueprint → Nat
  | [] => 0
  | b :: rest => bpSize b + bpListSize rest

/-- Total node count of a list of else-branch bodies. -/
def bpListListSize : List (List Blueprint) → Nat
  | [] => 0
  | l :: rest => bpListSize l + bpListListSize rest

end

theorem bpListSize_append (l1 l2 : List Blueprint) :
    bpListSize (l1 ++ l2) = bpListSize l1 + bpListSize l2 := by
  induction l1 with
  | nil => simp [bpListSize]
  | cons b rest ih => simp [bpListSize, ih]; omega

theorem bpListSize_reverse (l : List Blueprint) :
    bpListSize l.reverse = bpListSize l := by
  induction l with
  | nil => rfl
  | cons b rest ih => simp [bpListSize, List.reverse_cons, bpListSize_append, ih, bpSize]; omega

theorem bpListSize_flatten (ls : List (List Blueprint)) :
    bpListSize ls.flatten = bpListListSize ls := by
  induction ls with
  | nil => rfl
  | cons l rest ih => simp [bpListListSize, List.flatten_cons, bpListSize_append, ih]

/-- The worklist loop of `validate_blueprint`: the stack is kept top-first
(Rust pops from the back of its `Vec` and `extend` appends, so pushing the
children of a node means prepending them in reverse order here). A widget
node pushes its children, then its tag is checked against
`VALID_COMPONENTS`; the first failing check aborts with the widget's name. -/
def validateStack : List Blueprint → Except String Unit
  | [] => .ok ()
  | bp :: rest =>
    match bp with
    | .component body => validateStack (body.reverse ++ rest)
    | .controlFlow ifBody elses =>
        validateStack ((ifBody ++ elses.flatten).reverse ++ rest)
    | .forLoop body => validateStack (body.reverse ++ rest)
    | .single ident children =>
        if VALID_COMPONENTS.any (fun widget_name => widget_name = ident) then
          validateStack (children.reverse ++ rest)
        else
          .error ("Could not find widget `" ++ ident ++ "`")
termination_by l => bpListSize l
decreasing_by
  all_goals
    simp [bpListSize_append, bpListSize_reverse, bpListSize_flatten, bpListSize, bpSize] <;> omega

/-- `validate_blueprint`: runs the worklist starting from the root. -/
def validateBlueprint (bp : Blueprint) : Except String Unit :=
  validateStack [bp]

mutual

/-- Specification-side predicate: every widget node's tag throughout the tree
is a member of the whitelist `wl`. -/
def allValidB (wl : List String) : Blueprint → Bool
  | .component body => allValidListB wl body
  | .controlFlow ifBody elses => allValidListB wl ifBody && allValidListListB wl elses
  | .forLoop body => allValidListB wl body
  | .single ident children => wl.any (fun w => w = ident) && allValidListB wl children

/-- `allValidB` over a list of blueprints. -/
def allValidListB (wl : List String) : List Blueprint → Bool
  | [] => true
  | b :: rest => allValidB wl b && allValidListB wl rest

/-- `allValidB` over a list of else-branch bodies. -/
def allValidListListB (wl : List String) : List (List Blueprint) → Bool
  | [] => true
  | l :: rest => allValidListB wl l && allValidListListB wl rest

end

mutual

/-- All widget tag names occurring in a blueprint tree. -/
def bpIdents : Blueprint → List String
  | .component body => bpListIdents body
  | .controlFlow ifBody elses => bpListIdents ifBody ++ bpListListIdents elses
  | .forLoop body => bpListIdents body
  | .single ident children => ident :: bpListIdents children

/-- `bpIdents` over a list of blueprints. -/
def bpListIdents : List Blueprint → List String
  | [] => []
  | b :: rest => bpIdents b ++ bpListIdents rest

/-- `bpIdents` over a list of else-branch bodies. -/
def bpListListIdents : List (List Blueprint) → List String
  | [] => []
  | l :: rest => bpListIdents l ++ bpListListIdents rest

end

/-! ## `Editor::run_code` (`src/editor.rs`) -/

/-- The `Editor` fields that `run_code` reads or writes, from
`struct Editor` in `src/editor.rs`: the document lines, cursor and scroll
state, whether a backing file path exists (`file: Option<PathBuf>`), and the
repaint counter. -/
structure Editor where
  lines : List String
  offset_y : Nat
  cursor_x : Nat
  cursor_y : Nat
  hasFile : Bool
  should_rerender : Nat
deriving DecidableEq, Repr

/-- The template text `run_code` builds: the substitute
`text "nothing to see here"` when the document is empty or one empty line,
otherwise every line followed by a `'\n'`. -/
def buildRunString (lines : List String) : String :=
  if lines.isEmpty ∨ (lines.length = 1 ∧ (lines.getD 0 "").isEmpty) then
    "text \"nothing to see here\""
  else
    lines.foldl (fun acc line => acc ++ line ++ "\n") ""

/-- The externally observable outcome of one `run_code` call: the editor
fields afterwards, the template text handed to `compile` (and, on success,
to the preview worker), the payload passed to `fs::write` (if it was
called), whether a worker thread was spawned, and the surfaced error
message (if any). -/
structure RunOutcome where
  editor : Editor
  compiled : String
  fileWrite : Option String
  spawned : Bool
  errorMsg : Option String

/-- `Editor::run_code`, parametric in the outcomes of the external effects:
`compile` stands for `Document::new(..).compile()` of the anathema engine,
`writeOk` for the success of `fs::write`, `spawnOk` for the success of
`launch_threaded_anathema`. The control flow mirrors the source: build the
string, set the repaint counter, compile, validate, write the file when a
backing path exists, then spawn the worker; each failure surfaces a message
and stops. -/
def runCode (ed : Editor) (compile : String → Except String Blueprint)
    (writeOk spawnOk : Bool) : RunOutcome :=
  let s := buildRunString ed.lines
  let ed1 := { ed with should_rerender := 3 }
  match compile s with
  | .error e =>
      { editor := ed1, compiled := s, fileWrite := Option.none, spawned := false
        errorMsg := some ("Failed to compile the template: " ++ e) }
  | .ok blueprint =>
      match validateBlueprint blueprint with
      | .error e =>
          { editor := ed1, compiled := s, fileWrite := Option.none, spawned := false
            errorMsg := some ("Failed to compile the template: " ++ e) }
      | .ok _ =>
          if ed.hasFile ∧ ¬ writeOk then
            { editor := ed1, compiled := s, fileWrite := some s, spawned := false
              errorMsg := some "Failed to write the template: io error" }
          else if spawnOk then
            { editor := ed1, compiled := s
              fileWrite := if ed.hasFile then some s else Option.none
              spawned := true, errorMsg := Option.none }
          else
            { editor := ed1, compiled := s
              fileWrite := if ed.hasFile then some s else Option.none
              spawned := false
              errorMsg := some "Failed to write the template: spawn error" }

/-! ## Frame channel polling (`src/thread_backend.rs`) -/

/-- Modelled from the spec: the receive end of the `std::sync::mpsc` channel
(external to this repository) as seen by a single non-blocking consumer.
Per the spec the channel is unbounded and FIFO, messages are delivered in
send order; `queue` holds the frames sent and not yet consumed, oldest
first, and `closed` records that the sending side is gone. -/
structure Channel (α : Type) where
  queue : List α
  closed : Bool
deriving DecidableEq, Repr

/-- Modelled from the spec: `Receiver::try_recv` never blocks; it takes the
oldest pending message if one exists, reports `Empty` when the queue is
empty but the sender is alive, and `Disconnected` when the queue is empty
and the sender is gone. -/
inductive TryRecvResult (α : Type) where
  | ok (a : α)
  | empty
  | disconnected
deriving DecidableEq, Repr

/-- Modelled from the spec: one `try_recv` call on the channel state. -/
def tryRecv {α : Type} (ch : Channel α) : TryRecvResult α × Channel α :=
  match ch.queue with
  | a :: rest => (.ok a, { ch with queue := rest })
  | [] => if ch.closed then (.disconnected, ch) else (.empty, ch)

/-- `AnathemaThreadHandle::get_buffer` (`src/thread_backend.rs` lines
174-181): one `try_recv` on the frame receiver; a received frame becomes
`Ok(Some(frame))`, an empty queue `Ok(None)`, a disconnected channel
`Err(())`. The body is independent of the frame payload type. -/
def getBuffer {α : Type} (ch : Channel α) : Except Unit (Option α) × Channel α :=
  match tryRecv ch with
  | (.ok v, ch') => (.ok (some v), ch')
  | (.empty, ch') => (.ok Option.none, ch')
  | (.disconnected, ch') => (.error (), ch')

/-! ## Claim theorems -/

/-- The buffer reached from `from_iter("x\nabc\nc")` with a height-2
viewport after three `move_down` calls. -/
def c2Buffer : TextBuffer :=
  (((TextBuffer.fromIter ("x\nabc\nc".toList) 10 2).moveDown).moveDown).moveDown

/-- C2: the code violates the column invariant. In the reachable state
`c2Buffer` the cursor column is 3 while the line at the absolute row
`offset_y + cursor_y = 2` has length 1: the final `move_down` set the
column from `lines.get(cursor_y)` (the relative row) instead of the
absolute row. -/
theorem C2_column_invariant_violated :
    c2Buffer.cursor_y + c2Buffer.offset_y = 2 ∧ c2Buffer.cursor_x = 3 ∧
      ((c2Buffer.lines[c2Buffer.cursor_y + c2Buffer.offset_y]?).getD []).length = 1 ∧
      ¬ c2Buffer.cursor_x
          ≤ ((c2Buffer.lines[c2Buffer.cursor_y + c2Buffer.offset_y]?).getD []).length := by
  decide

/-- The line `text "hello" // note` of claim C9, with all tags initially
unset. -/
def exampleLine : List Cell :=
  ("text \"hello\" // note".toList).map Cell.ofChar

/-- C9 counterexample: on `text \"hello\" // note` the highlighter does not
produce the claimed tags (`text` untagged and the Comment span starting at
the space before `//`): the actual tags differ — in particular `text` is
tagged Widget and the space at index 12 stays untagged. -/
theorem C9_counterexample :
    (highlightLine exampleLine).map Cell.hl ≠
      List.replicate 5 .none ++ List.replicate 7 .string ++ List.replicate 8 .comment ∧
    ((highlightLine exampleLine).map Cell.hl).getD 0 .none = .widget ∧
    ((highlightLine exampleLine).map Cell.hl).getD 12 .none = .none := by
  decide

/-- C9 (amended): on the exact line `text "hello" // note` the highlighter
tags the span `text` as Widget (it is on the widget whitelist), the quoted
span `"hello"` as String end-to-end including both quote characters, and
`// note` — starting at the first slash, not at the preceding space — as
Comment; the two spaces (indices 4 and 12) remain untagged, and the
characters themselves are unchanged. -/
theorem C9_highlight_line_example :
    (highlightLine exampleLine).map Cell.hl =
      List.replicate 4 .widget ++ [.none] ++ List.replicate 7 .string ++ [.none] ++
        List.replicate 7 .comment ∧
    (highlightLine exampleLine).map Cell.ch = "text \"hello\" // note".toList := by
  decide

/-- C4 counterexample: with two frames pending (sent first `0`, then `1`)
and the worker alive, a single `get_buffer` poll yields the oldest frame
`0` — not the latest `1` — and leaves `1` queued rather than dropping it. -/
theorem C4_counterexample :
    getBuffer (⟨[0, 1], false⟩ : Channel Nat) = (.ok (some 0), ⟨[1], false⟩) ∧
      (0 : Nat) ≠ 1 :=
  ⟨rfl, by decide⟩

/-- C4 (amended): `get_buffer` is non-blocking (a total function of the
channel state) and consumes at most one pending frame per call, namely the
oldest one: with frames f1..fn pending, a single poll yields f1 and leaves
f2..fn queued (FIFO, no frame is dropped); with no frame pending it returns
`Ok(None)` when the worker is alive and `Err(())` when the channel is
disconnected, leaving the state unchanged. -/
theorem C4_fifo_poll {α : Type} (q : List α) (c : Bool) :
    (∀ f rest, q = f :: rest → getBuffer ⟨q, c⟩ = (.ok (some f), ⟨rest, c⟩)) ∧
    (q = [] →
      getBuffer ⟨q, c⟩ = ((if c then .error () else .ok Option.none), ⟨q, c⟩)) := by
  constructor
  · rintro f rest rfl
    simp [getBuffer, tryRecv]
  · rintro rfl
    cases c <;> simp [getBuffer, tryRecv]

/-- Witness for C4: polling a channel holding the single frame `5` yields
exactly that frame and empties the queue. -/
theorem C4_fifo_poll_witness :
    getBuffer (⟨[5], false⟩ : Channel Nat) = (.ok (some 5), ⟨[], false⟩) :=
  (C4_fifo_poll [5] false).1 5 [] rfl

/-- In every branch of `run_code` the template text handed to the engine is
the one `buildRunString` produced from the document. -/
theorem runCode_compiled (ed : Editor) (compile : String → Except String Blueprint)
    (wOk sOk : Bool) :
    (runCode ed compile wOk sOk).compiled = buildRunString ed.lines := by
  simp only [runCode]
  repeat' split
  all_goals rfl

/-- `run_code` never touches the document or cursor: the editor afterwards
differs from the one before only in the repaint counter. -/
theorem runCode_editor (ed : Editor) (compile : String → Except String Blueprint)
    (wOk sOk : Bool) :
    (runCode ed compile wOk sOk).editor = { ed with should_rerender := 3 } := by
  simp only [runCode]
  repeat' split
  all_goals rfl

/-- C3 counterexample: for the one-line document `vstack` with a backing
file, a successful compile+validate run writes `"vstack\n"` — the line with
a trailing newline appended — which differs from the claimed payload, the
newline-join of the lines with no trailing delimiter. -/
theorem C3_counterexample :
    (runCode ⟨["vstack"], 0, 0, 0, true, 0⟩
        (fun _ => .ok (.single "vstack" [])) true true).fileWrite = some "vstack\n" ∧
      ("vstack\n" : String) ≠ String.intercalate "\n" ["vstack"] := by
  refine ⟨?_, by decide⟩
  have hv : validateBlueprint (Blueprint.single "vstack" []) = .ok () := by
    simp [validateBlueprint, validateStack, VALID_COMPONENTS]
  simp [runCode, buildRunString, hv]
  decide

/-- C3 (amended): whenever `run_code` passes a payload to `fs::write`, that
payload is exactly `buildRunString` of the document — every line followed by
a newline (so a trailing newline is appended), or the substitute template
for an empty document — the editor has a backing file, and both compile and
validate succeeded beforehand; no write happens on a compile or validation
error. -/
theorem C3_write_payload (ed : Editor) (compile : String → Except String Blueprint)
    (wOk sOk : Bool) (s : String)
    (h : (runCode ed compile wOk sOk).fileWrite = some s) :
    s = buildRunString ed.lines ∧ ed.hasFile = true ∧
      ∃ bp, compile (buildRunString ed.lines) = .ok bp ∧ validateBlueprint bp = .ok () := by
  simp only [runCode] at h
  split at h
  · simp at h
  · rename_i bp hc
    split at h
    · simp at h
    · rename_i u hv
      split at h
      · rename_i hw
        simp at h
        exact ⟨h.symm, hw.1, bp, hc, by cases u; exact hv⟩
      · rename_i hw
        split at h
        all_goals
          cases hf : ed.hasFile with
          | false => rw [hf] at h; simp at h
          | true =>
            rw [hf] at h; simp at h
            exact ⟨h.symm, rfl, bp, hc, by cases u; exact hv⟩

/-- Witness for C3: in the successful run on the one-line document `vstack`
the written payload is `buildRunString` of the document, the backing file
exists, and compile and validate succeeded. -/
theorem C3_write_payload_witness :
    ("vstack\n" : String) = buildRunString ["vstack"] ∧
      (⟨["vstack"], 0, 0, 0, true, 0⟩ : Editor).hasFile = true ∧
      ∃ bp, (Except.ok (Blueprint.single "vstack" []) : Except String Blueprint)
              = Except.ok bp ∧ validateBlueprint bp = Except.ok () := by
  have hv : validateBlueprint (Blueprint.single "vstack" []) = .ok () := by
    simp [validateBlueprint, validateStack, VALID_COMPONENTS]
  exact C3_write_payload ⟨["vstack"], 0, 0, 0, true, 0⟩
    (fun _ => .ok (.single "vstack" [])) true true "vstack\n"
    (by simp [runCode, buildRunString, hv]; decide)

/-- C8: when compile fails, or compile succeeds but validation fails,
`run_code` surfaces an error message, does not write the backing file, does
not spawn a worker, and leaves the document lines, cursor, and scroll
offset untouched. -/
theorem C8_error_leaves_state (ed : Editor) (compile : String → Except String Blueprint)
    (wOk sOk : Bool)
    (h : (∃ e, compile (buildRunString ed.lines) = .error e) ∨
         (∃ bp e, compile (buildRunString ed.lines) = .ok bp ∧
            validateBlueprint bp = .error e)) :
    (runCode ed compile wOk sOk).fileWrite = Option.none ∧
      (runCode ed compile wOk sOk).spawned = false ∧
      ((runCode ed compile wOk sOk).errorMsg).isSome = true ∧
      (runCode ed compile wOk sOk).editor.lines = ed.lines ∧
      (runCode ed compile wOk sOk).editor.cursor_x = ed.cursor_x ∧
      (runCode ed compile wOk sOk).editor.cursor_y = ed.cursor_y ∧
      (runCode ed compile wOk sOk).editor.offset_y = ed.offset_y := by
  obtain ⟨e, hc⟩ | ⟨bp, e, hc, hv⟩ := h
  · simp [runCode, hc]
  · simp [runCode, hc, hv]

/-- Witness for C8: a compile failure on the one-line document `vstack`
takes the error path and leaves everything untouched. -/
theorem C8_error_leaves_state_witness :
    (runCode ⟨["vstack"], 1, 2, 3, true, 0⟩ (fun _ => .error "parse") true true).fileWrite
        = Option.none ∧
      (runCode ⟨["vstack"], 1, 2, 3, true, 0⟩ (fun _ => .error "parse") true true).spawned
        = false ∧
      ((runCode ⟨["vstack"], 1, 2, 3, true, 0⟩ (fun _ => .error "parse") true true).errorMsg).isSome
        = true ∧
      (runCode ⟨["vstack"], 1, 2, 3, true, 0⟩ (fun _ => .error "parse") true true).editor.lines
        = ["vstack"] ∧
      (runCode ⟨["vstack"], 1, 2, 3, true, 0⟩ (fun _ => .error "parse") true true).editor.cursor_x
        = 2 ∧
      (runCode ⟨["vstack"], 1, 2, 3, true, 0⟩ (fun _ => .error "parse") true true).editor.cursor_y
        = 3 ∧
      (runCode ⟨["vstack"], 1, 2, 3, true, 0⟩ (fun _ => .error "parse") true true).editor.offset_y
        = 1 :=
  C8_error_leaves_state ⟨["vstack"], 1, 2, 3, true, 0⟩ (fun _ => .error "parse") true true
    (Or.inl ⟨"parse", rfl⟩)

/-- C10: when the document is empty or a single empty line, `run_code`
hands the substitute template `text "nothing to see here"` to compile (and,
on success, to the preview worker) in place of the document's content,
while the document lines and cursor state are not modified. -/
theorem C10_substitute_template (ed : Editor) (compile : String → Except String Blueprint)
    (wOk sOk : Bool) (h : ed.lines = [] ∨ ed.lines = [""]) :
    (runCode ed compile wOk sOk).compiled = "text \"nothing to see here\"" ∧
      (runCode ed compile wOk sOk).editor.lines = ed.lines ∧
      (runCode ed compile wOk sOk).editor.cursor_x = ed.cursor_x ∧
      (runCode ed compile wOk sOk).editor.cursor_y = ed.cursor_y ∧
      (runCode ed compile wOk sOk).editor.offset_y = ed.offset_y := by
  have hs : buildRunString ed.lines = "text \"nothing to see here\"" := by
    obtain h | h := h
    · simp [h, buildRunString]
    · simp [h, buildRunString]
      decide
  refine ⟨by rw [runCode_compiled, hs], ?_, ?_, ?_, ?_⟩ <;> rw [runCode_editor]

/-- Witness for C10: on the single-empty-line document the substitute
template is compiled and the document is untouched. -/
theorem C10_substitute_template_witness :
    (runCode ⟨[""], 0, 0, 0, false, 0⟩ (fun _ => .error "e") true true).compiled
        = "text \"nothing to see here\"" ∧
      (runCode ⟨[""], 0, 0, 0, false, 0⟩ (fun _ => .error "e") true true).editor.lines = [""] ∧
      (runCode ⟨[""], 0, 0, 0, false, 0⟩ (fun _ => .error "e") true true).editor.cursor_x = 0 ∧
      (runCode ⟨[""], 0, 0, 0, false, 0⟩ (fun _ => .error "e") true true).editor.cursor_y = 0 ∧
      (runCode ⟨[""], 0, 0, 0, false, 0⟩ (fun _ => .error "e") true true).editor.offset_y = 0 :=
  C10_substitute_template ⟨[""], 0, 0, 0, false, 0⟩ (fun _ => .error "e") true true
    (Or.inr rfl)

/-- A single `from_iter` step leaves at least one line. -/
theorem fromIterStep_len (acc : List (List Cell)) (c : Char) :
    1 ≤ (TextBuffer.fromIterStep acc c).length := by
  rw [TextBuffer.fromIterStep]
  split <;> simp

/-- The `from_iter` fold always yields at least one line. -/
theorem fromIter_foldl_len (cs : List Char) (acc : List (List Cell)) :
    1 ≤ acc.length → 1 ≤ (cs.foldl TextBuffer.fromIterStep acc).length := by
  induction cs generalizing acc with
  | nil => intro h; simpa using h
  | cons c cs ih =>
      intro _
      rw [List.foldl_cons]
      exact ih _ (fromIterStep_len acc c)

/-- `move_up` never changes the line list. -/
theorem moveUp_lines (tb : TextBuffer) : tb.moveUp.lines = tb.lines := by
  unfold TextBuffer.moveUp
  dsimp only
  repeat' split
  all_goals rfl

/-- `move_down` never changes the line list. -/
theorem moveDown_lines (tb : TextBuffer) : tb.moveDown.lines = tb.lines := by
  unfold TextBuffer.moveDown
  dsimp only
  repeat' split
  all_goals rfl

/-- `move_left` never changes the line list. -/
theorem moveLeft_lines (tb : TextBuffer) : tb.moveLeft.lines = tb.lines := by
  unfold TextBuffer.moveLeft
  dsimp only
  repeat' split
  all_goals rfl

/-- `move_right` never changes the line list. -/
theorem moveRight_lines (tb : TextBuffer) : tb.moveRight.lines = tb.lines := by
  unfold TextBuffer.moveRight
  dsimp only
  repeat' split
  all_goals first | rfl | (rw [moveDown_lines])

/-- `move_to_lineend` never changes the line list. -/
theorem moveToLineend_lines (tb : TextBuffer) : tb.moveToLineend.lines = tb.lines := by
  unfold TextBuffer.moveToLineend
  dsimp only
  repeat' split
  all_goals rfl

/-- `move_to_end` never changes the line list. -/
theorem moveToEnd_lines (tb : TextBuffer) : tb.moveToEnd.lines = tb.lines := by
  unfold TextBuffer.moveToEnd
  dsimp only
  repeat' split
  all_goals rfl

/-- Backspace keeps the line list non-empty: the only removal happens when
the cursor line exists at an absolute row of at least 1, so at least two
lines existed beforehand. -/
theorem removeCharBefore_len (tb : TextBuffer) (h : 1 ≤ tb.lines.length) :
    1 ≤ tb.removeCharBefore.lines.length := by
  unfold TextBuffer.removeCharBefore
  dsimp only
  repeat' split
  all_goals simp_all [List.length_set, List.length_eraseIdx, List.getElem?_eq_some]
  all_goals rename_i h4 heq hx0 hcy
  all_goals obtain ⟨hb, -⟩ := heq
  all_goals rw [if_pos hb]
  all_goals omega

/-- Line splitting keeps the line list non-empty. -/
theorem insertNewline_len (tb : TextBuffer) (h : 1 ≤ tb.lines.length) :
    1 ≤ tb.insertNewline.lines.length := by
  unfold TextBuffer.insertNewline
  dsimp only
  repeat' split
  all_goals simp_all [List.length_set]
  all_goals
    exact le_trans (by simpa using h) (List.length_le_length_insertIdx _ _ _)

/-- Character insertion keeps the line list non-empty. -/
theorem insertChar_len (tb : TextBuffer) (c : Char) (h : 1 ≤ tb.lines.length) :
    1 ≤ (tb.insertChar c).lines.length := by
  unfold TextBuffer.insertChar
  dsimp only
  repeat' split
  all_goals first
    | exact insertNewline_len tb h
    | simp_all [List.length_set]

/-- C5: the line sequence is never empty. `new` and `from_iter` produce at
least one line, and every public operation — character insertion, line
splitting, backspace, and all eight cursor motions — preserves a non-empty
line list. -/
theorem C5_lines_never_empty (w h : Nat) (cs : List Char) (tb : TextBuffer) (c : Char)
    (htb : 1 ≤ tb.lines.length) :
    1 ≤ (TextBuffer.new w h).lines.length ∧
    1 ≤ (TextBuffer.fromIter cs w h).lines.length ∧
    1 ≤ (tb.insertChar c).lines.length ∧
    1 ≤ tb.insertNewline.lines.length ∧
    1 ≤ tb.removeCharBefore.lines.length ∧
    1 ≤ tb.moveUp.lines.length ∧
    1 ≤ tb.moveDown.lines.length ∧
    1 ≤ tb.moveLeft.lines.length ∧
    1 ≤ tb.moveRight.lines.length ∧
    1 ≤ tb.moveToStart.lines.length ∧
    1 ≤ tb.moveToEnd.lines.length ∧
    1 ≤ tb.moveToLinestart.lines.length ∧
    1 ≤ tb.moveToLineend.lines.length := by
  refine ⟨by simp [TextBuffer.new], fromIter_foldl_len cs [[]] (by simp),
    insertChar_len tb c htb, insertNewline_len tb htb, removeCharBefore_len tb htb,
    ?_, ?_, ?_, ?_, ?_, ?_, ?_, ?_⟩
  · rw [moveUp_lines]; exact htb
  · rw [moveDown_lines]; exact htb
  · rw [moveLeft_lines]; exact htb
  · rw [moveRight_lines]; exact htb
  · exact htb
  · rw [moveToEnd_lines]; exact htb
  · exact htb
  · rw [moveToLineend_lines]; exact htb

/-- Witness for C5: all operations keep the single-empty-line buffer
non-empty. -/
theorem C5_lines_never_empty_witness :
    1 ≤ (TextBuffer.new 3 3).lines.length ∧
    1 ≤ (TextBuffer.fromIter [] 3 3).lines.length ∧
    1 ≤ ((TextBuffer.new 3 3).insertChar 'a').lines.length ∧
    1 ≤ (TextBuffer.new 3 3).insertNewline.lines.length ∧
    1 ≤ (TextBuffer.new 3 3).removeCharBefore.lines.length ∧
    1 ≤ (TextBuffer.new 3 3).moveUp.lines.length ∧
    1 ≤ (TextBuffer.new 3 3).moveDown.lines.length ∧
    1 ≤ (TextBuffer.new 3 3).moveLeft.lines.length ∧
    1 ≤ (TextBuffer.new 3 3).moveRight.lines.length ∧
    1 ≤ (TextBuffer.new 3 3).moveToStart.lines.length ∧
    1 ≤ (TextBuffer.new 3 3).moveToEnd.lines.length ∧
    1 ≤ (TextBuffer.new 3 3).moveToLinestart.lines.length ∧
    1 ≤ (TextBuffer.new 3 3).moveToLineend.lines.length :=
  C5_lines_never_empty 3 3 [] (TextBuffer.new 3 3) 'a' (by decide)

/-- Setting an index to the value it already holds leaves the list
unchanged. -/
theorem set_getElem?_same {α : Type} (l : List α) (n : Nat) (a : α) (h : l[n]? = some a) :
    l.set n a = l := by
  apply List.ext_getElem?
  intro i
  rw [List.getElem?_set]
  split
  · rename_i he; subst he; split
    · exact h.symm
    · rw [eq_comm, List.getElem?_eq_none]; omega
  · rfl

/-- The cursor addresses an existing line and its column is at most that
line's length (the precondition of the round-trip claims). -/
def cursorOk (tb : TextBuffer) : Prop :=
  tb.cursor_y + tb.offset_y < tb.lines.length ∧
  tb.cursor_x ≤ ((tb.lines[tb.cursor_y + tb.offset_y]?).getD []).length

instance (tb : TextBuffer) : Decidable (cursorOk tb) := by
  unfold cursorOk
  infer_instance

/-- Backspace undoes a single non-newline insertion exactly, restoring the
whole buffer state. -/
theorem remove_insert (tb : TextBuffer) (c : Char) (hc : c ≠ '\n')
    (h1 : tb.cursor_y + tb.offset_y < tb.lines.length)
    (h2 : tb.cursor_x ≤ ((tb.lines[tb.cursor_y + tb.offset_y]?).getD []).length) :
    (tb.insertChar c).removeCharBefore = tb := by
  obtain ⟨lines, oy, cx, cy, w, ht⟩ := tb
  dsimp only at h1 h2 ⊢
  have h1' : oy + cy < lines.length := by omega
  obtain ⟨line, hline⟩ : ∃ line, lines[oy + cy]? = some line :=
    ⟨_, List.getElem?_eq_getElem h1'⟩
  have hline' : lines[cy + oy]? = some line := by rwa [Nat.add_comm cy oy]
  rw [hline'] at h2
  simp only [Option.getD_some] at h2
  simp only [TextBuffer.insertChar, if_neg hc, hline]
  by_cases hx : cx < line.length
  · rw [if_pos hx]
    simp only [TextBuffer.removeCharBefore]
    have hget : ((lines.set (oy + cy) (line.insertIdx cx (Cell.ofChar c)))[cy + oy]?)
        = some (line.insertIdx cx (Cell.ofChar c)) := by
      rw [Nat.add_comm cy oy]
      exact List.getElem?_set_self (by omega)
    rw [hget]
    dsimp only
    have hlen : (line.insertIdx cx (Cell.ofChar c)).length = line.length + 1 :=
      List.length_insertIdx cx line (by omega)
    rw [if_neg (by omega : ¬ (cy + oy = 0 ∧ cx + 1 = 0))]
    rw [if_neg (by omega : ¬ cx + 1 = 0)]
    rw [if_neg (by rw [hlen]; omega : ¬ cx + 1 ≥ (line.insertIdx cx (Cell.ofChar c)).length)]
    simp only [Nat.add_sub_cancel]
    rw [List.eraseIdx_insertIdx, Nat.add_comm cy oy, List.set_set,
      set_getElem?_same lines (oy + cy) line hline]
  · rw [if_neg hx]
    have hxe : cx = line.length := by omega
    simp only [TextBuffer.removeCharBefore]
    have hget : ((lines.set (oy + cy) (line ++ [Cell.ofChar c]))[cy + oy]?)
        = some (line ++ [Cell.ofChar c]) := by
      rw [Nat.add_comm cy oy]
      exact List.getElem?_set_self (by omega)
    rw [hget]
    dsimp only
    rw [if_neg (by omega : ¬ (cy + oy = 0 ∧ line.length + 1 = 0))]
    rw [if_neg (by omega : ¬ line.length + 1 = 0)]
    rw [if_pos (by simp : line.length + 1 ≥ (line ++ [Cell.ofChar c]).length)]
    rw [List.dropLast_concat, Nat.add_comm cy oy, List.set_set,
      set_getElem?_same lines (oy + cy) line hline]
    rw [hxe]

/-- A non-newline insertion keeps the cursor on an existing line with its
column at most the line length. -/
theorem insertChar_cursorOk (tb : TextBuffer) (c : Char) (hc : c ≠ '\n')
    (h : cursorOk tb) : cursorOk (tb.insertChar c) := by
  obtain ⟨h1, h2⟩ := h
  obtain ⟨lines, oy, cx, cy, w, ht⟩ := tb
  dsimp only at h1 h2 ⊢
  have h1' : oy + cy < lines.length := by omega
  obtain ⟨line, hline⟩ : ∃ line, lines[oy + cy]? = some line :=
    ⟨_, List.getElem?_eq_getElem h1'⟩
  have hline' : lines[cy + oy]? = some line := by rwa [Nat.add_comm cy oy]
  rw [hline'] at h2
  simp only [Option.getD_some] at h2
  simp only [cursorOk, TextBuffer.insertChar, if_neg hc, hline]
  by_cases hx : cx < line.length
  · rw [if_pos hx]
    constructor
    · dsimp only; simpa using h1
    · dsimp only
      have hget : ((lines.set (oy + cy) (line.insertIdx cx (Cell.ofChar c)))[cy + oy]?)
          = some (line.insertIdx cx (Cell.ofChar c)) := by
        rw [Nat.add_comm cy oy]
        exact List.getElem?_set_self (by omega)
      rw [hget]
      simp only [Option.getD_some]
      rw [List.length_insertIdx cx line (by omega)]
      omega
  · rw [if_neg hx]
    constructor
    · dsimp only; simpa using h1
    · dsimp only
      have hget : ((lines.set (oy + cy) (line ++ [Cell.ofChar c]))[cy + oy]?)
          = some (line ++ [Cell.ofChar c]) := by
        rw [Nat.add_comm cy oy]
        exact List.getElem?_set_self (by omega)
      rw [hget]
      simp

/-- A sequence of `insert_char` calls, left to right. -/
def insertChars (tb : TextBuffer) (cs : List Char) : TextBuffer :=
  cs.foldl TextBuffer.insertChar tb

/-- `remove_char_before` applied `n` times. -/
def removeN (n : Nat) (tb : TextBuffer) : TextBuffer :=
  TextBuffer.removeCharBefore^[n] tb

/-- C6: for a buffer whose cursor addresses an existing line with the column
at most the line length, inserting any sequence of non-newline characters
and then calling backspace once per inserted character restores the entire
original buffer state — in particular the original line content and cursor
column. -/
theorem C6_insert_remove_roundtrip (tb : TextBuffer) (cs : List Char)
    (hok : cursorOk tb) (hcs : ∀ c ∈ cs, c ≠ '\n') :
    removeN cs.length (insertChars tb cs) = tb := by
  induction cs generalizing tb with
  | nil => rfl
  | cons c cs ih =>
      have hc : c ≠ '\n' := hcs c (by simp)
      have step : insertChars tb (c :: cs) = insertChars (tb.insertChar c) cs := by
        simp [insertChars]
      rw [step]
      show removeN (cs.length + 1) _ = tb
      rw [removeN, Function.iterate_succ_apply']
      have ihx := ih (tb.insertChar c) (insertChar_cursorOk tb c hc hok)
        (fun x hx => hcs x (by simp [hx]))
      rw [removeN] at ihx
      rw [ihx]
      exact remove_insert tb c hc hok.1 hok.2

/-- Witness for C6: inserting `x` then `y` into the one-line buffer `ab` and
backspacing twice restores the buffer exactly. -/
theorem C6_insert_remove_roundtrip_witness :
    removeN 2 (insertChars (TextBuffer.fromIter ['a', 'b'] 10 5) ['x', 'y'])
      = TextBuffer.fromIter ['a', 'b'] 10 5 :=
  C6_insert_remove_roundtrip (TextBuffer.fromIter ['a', 'b'] 10 5) ['x', 'y']
    (by decide) (by decide)

/-- The element just inserted by `insertIdx` is found at its index. -/
theorem getElem?_insertIdx_self' {α : Type} (l : List α) (x : α) (n : Nat) (h : n ≤ l.length) :
    (l.insertIdx n x)[n]? = some x := by
  rw [List.getElem?_eq_some]
  exact ⟨by rw [List.length_insertIdx n l h]; omega, List.getElem_insertIdx_self l x n h⟩

/-- Backspace at column 0 directly after a line split at absolute row `a`
merges the two halves back: the line list is restored, the column becomes
the first half's length, and the row/offset pair loses one (preferring the
offset when the relative row is 0). -/
theorem removeAfterSplit (lines : List (List Cell)) (line : List Cell)
    (cx oy1 cy1 w ht a : Nat) (habs : cy1 + oy1 = a + 1)
    (hline : lines[a]? = some line) (h2 : cx ≤ line.length) :
    TextBuffer.removeCharBefore
        ⟨(lines.set a (line.take cx)).insertIdx (a + 1) (line.drop cx), oy1, 0, cy1, w, ht⟩
      = ⟨lines, if cy1 = 0 then oy1 - 1 else oy1, cx, if cy1 = 0 then cy1 else cy1 - 1,
          w, ht⟩ := by
  have hL : a < lines.length := (List.getElem?_eq_some.mp hline).1
  have hM : ((lines.set a (line.take cx)).insertIdx (a + 1) (line.drop cx))[a + 1]?
      = some (line.drop cx) :=
    getElem?_insertIdx_self' _ _ _ (by rw [List.length_set]; omega)
  simp only [TextBuffer.removeCharBefore]
  rw [habs]
  rw [if_neg (by simp : ¬ (a + 1 = 0 ∧ True))]
  rw [hM]
  dsimp only
  simp only [if_true]
  rw [if_neg (by omega : ¬ a + 1 = 0)]
  rw [List.eraseIdx_insertIdx, Nat.add_sub_cancel]
  rw [List.getElem?_set_self (by omega : a < lines.length)]
  simp only [Option.getD_some]
  rw [List.set_set, List.take_append_drop, set_getElem?_same lines a line hline]
  have hprevlen : (line.take cx).length = cx := by
    rw [List.length_take]; omega
  by_cases hcy : cy1 = 0
  · rw [if_pos hcy, if_pos hcy, if_pos hcy]
    rw [hprevlen]
  · rw [if_neg hcy, if_neg hcy, if_neg hcy]
    rw [hprevlen]

/-- C7 counterexample: with a height-2 viewport and the cursor on the
bottom viewport row (row 1, offset 0) of a three-line document, splitting
the line scrolls the view; the following backspace merges the lines back
and restores the absolute position, but as (row 0, offset 1) — the cursor
row and scroll offset do not equal their pre-split values, contradicting
the claim. -/
theorem C7_counterexample :
    let tb : TextBuffer :=
      ⟨[[Cell.ofChar 'a'], [Cell.ofChar 'b'], [Cell.ofChar 'c']], 0, 0, 1, 10, 2⟩
    cursorOk tb ∧
      ((tb.insertChar '\n').removeCharBefore).lines = tb.lines ∧
      ((tb.insertChar '\n').removeCharBefore).cursor_x = tb.cursor_x ∧
      ((tb.insertChar '\n').removeCharBefore).cursor_y = 0 ∧
      ((tb.insertChar '\n').removeCharBefore).offset_y = 1 ∧
      tb.cursor_y = 1 ∧ tb.offset_y = 0 := by
  decide

/-- C7 (amended): for a buffer with a positive viewport height whose cursor
addresses an existing line with the column at most the line length,
inserting `'\n'` and then immediately backspacing restores the line
sequence, the cursor column, and the absolute row `cursor_y + offset_y`;
and whenever `cursor_y + offset_y + 1 < height` (the split cannot hit the
scroll clamp), the whole buffer state — including `cursor_y` and
`offset_y` individually — is restored. This is a sufficient condition
only: a clamp that fires as a no-op can also restore the pair. -/
theorem C7_newline_remove_roundtrip (tb : TextBuffer) (hh : 1 ≤ tb.height)
    (hok : cursorOk tb) :
    ((tb.insertChar '\n').removeCharBefore).lines = tb.lines ∧
    ((tb.insertChar '\n').removeCharBefore).cursor_x = tb.cursor_x ∧
    ((tb.insertChar '\n').removeCharBefore).cursor_y
        + ((tb.insertChar '\n').removeCharBefore).offset_y
      = tb.cursor_y + tb.offset_y ∧
    (tb.cursor_y + tb.offset_y + 1 < tb.height →
      (tb.insertChar '\n').removeCharBefore = tb) := by
  obtain ⟨hL, h2⟩ := hok
  obtain ⟨lines, oy, cx, cy, w, ht⟩ := tb
  dsimp only at hL h2 hh ⊢
  obtain ⟨line, hline⟩ : ∃ l, lines[cy + oy]? = some l := ⟨_, List.getElem?_eq_getElem hL⟩
  rw [hline] at h2
  simp only [Option.getD_some] at h2
  obtain ⟨o1, y1, hins, hsum, hfull⟩ :
      ∃ o1 y1,
        TextBuffer.insertChar ⟨lines, oy, cx, cy, w, ht⟩ '\n'
            = ⟨(lines.set (cy + oy) (line.take cx)).insertIdx (cy + oy + 1) (line.drop cx),
                o1, 0, y1, w, ht⟩ ∧
          y1 + o1 = cy + oy + 1 ∧
          (cy + oy + 1 < ht → o1 = oy ∧ y1 = cy + 1) := by
    simp only [TextBuffer.insertChar, if_pos rfl, if_true, TextBuffer.insertNewline, hline]
    rw [List.length_set]
    by_cases hb1 : cy + 1 ≥ lines.length
    · rw [if_pos hb1]
      have hoy : oy = 0 := by omega
      have hcyL : cy + 1 = lines.length := by omega
      have happ : (lines.set (cy + oy) (line.take cx)) ++ [line.drop cx]
          = (lines.set (cy + oy) (line.take cx)).insertIdx (cy + oy + 1) (line.drop cx) := by
        rw [show cy + oy + 1 = (lines.set (cy + oy) (line.take cx)).length by
              rw [List.length_set]; omega]
        exact (List.insertIdx_length_self _ _).symm
      simp only [List.length_append, List.length_set, List.length_cons, List.length_nil]
      by_cases hb2 : lines.length + 1 - 1 ≥ ht
      · rw [if_pos hb2, happ]
        exact ⟨_, _, rfl, by omega, by omega⟩
      · rw [if_neg hb2, happ]
        exact ⟨_, _, rfl, by omega, by omega⟩
    · rw [if_neg hb1]
      have hidx : oy + (cy + 1) = cy + oy + 1 := by omega
      rw [hidx]
      by_cases hb3 : cy + 1 + oy ≥ ht
      · rw [if_pos hb3]
        exact ⟨_, _, rfl, by omega, by omega⟩
      · rw [if_neg hb3]
        exact ⟨_, _, rfl, by omega, by omega⟩
  rw [hins, removeAfterSplit lines line cx o1 y1 w ht (cy + oy) hsum hline h2]
  refine ⟨rfl, rfl, ?_, ?_⟩
  · dsimp only
    by_cases hy : y1 = 0 <;> simp [hy] <;> omega
  · intro hlt
    obtain ⟨ho1, hy1⟩ := hfull hlt
    subst ho1
    rw [if_neg (by omega), if_neg (by omega), hy1]
    simp

/-- Witness for C7: splitting the one-line buffer `ab` at column 1 and
backspacing restores everything, including the cursor row and offset. -/
theorem C7_newline_remove_roundtrip_witness :
    (((⟨[[Cell.ofChar 'a', Cell.ofChar 'b']], 0, 1, 0, 10, 5⟩ : TextBuffer).insertChar
            '\n').removeCharBefore).lines
        = (⟨[[Cell.ofChar 'a', Cell.ofChar 'b']], 0, 1, 0, 10, 5⟩ : TextBuffer).lines ∧
      (((⟨[[Cell.ofChar 'a', Cell.ofChar 'b']], 0, 1, 0, 10, 5⟩ : TextBuffer).insertChar
            '\n').removeCharBefore).cursor_x
        = (⟨[[Cell.ofChar 'a', Cell.ofChar 'b']], 0, 1, 0, 10, 5⟩ : TextBuffer).cursor_x ∧
      (((⟨[[Cell.ofChar 'a', Cell.ofChar 'b']], 0, 1, 0, 10, 5⟩ : TextBuffer).insertChar
              '\n').removeCharBefore).cursor_y
          + (((⟨[[Cell.ofChar 'a', Cell.ofChar 'b']], 0, 1, 0, 10, 5⟩ :
              TextBuffer).insertChar '\n').removeCharBefore).offset_y
        = (⟨[[Cell.ofChar 'a', Cell.ofChar 'b']], 0, 1, 0, 10, 5⟩ : TextBuffer).cursor_y
            + (⟨[[Cell.ofChar 'a', Cell.ofChar 'b']], 0, 1, 0, 10, 5⟩ :
              TextBuffer).offset_y ∧
      ((⟨[[Cell.ofChar 'a', Cell.ofChar 'b']], 0, 1, 0, 10, 5⟩ : TextBuffer).cursor_y
            + (⟨[[Cell.ofChar 'a', Cell.ofChar 'b']], 0, 1, 0, 10, 5⟩ :
              TextBuffer).offset_y + 1
          < (⟨[[Cell.ofChar 'a', Cell.ofChar 'b']], 0, 1, 0, 10, 5⟩ : TextBuffer).height →
        ((⟨[[Cell.ofChar 'a', Cell.ofChar 'b']], 0, 1, 0, 10, 5⟩ :
            TextBuffer).insertChar '\n').removeCharBefore
          = ⟨[[Cell.ofChar 'a', Cell.ofChar 'b']], 0, 1, 0, 10, 5⟩) :=
  C7_newline_remove_roundtrip ⟨[[Cell.ofChar 'a', Cell.ofChar 'b']], 0, 1, 0, 10, 5⟩
    (by decide) (by decide)

/-- Every widget tag of a list of blueprints is whitelisted iff both halves
of a concatenation are. -/
theorem allValidListB_append (wl : List String) (l1 l2 : List Blueprint) :
    allValidListB wl (l1 ++ l2) = (allValidListB wl l1 && allValidListB wl l2) := by
  induction l1 with
  | nil => simp [allValidListB]
  | cons b rest ih => simp [allValidListB, ih, Bool.and_assoc]

/-- Reversing a blueprint list does not change whether all its tags are
whitelisted. -/
theorem allValidListB_reverse (wl : List String) (l : List Blueprint) :
    allValidListB wl l.reverse = allValidListB wl l := by
  induction l with
  | nil => rfl
  | cons b rest ih =>
      simp [List.reverse_cons, allValidListB_append, allValidListB, ih, Bool.and_comm]

/-- Flattening the else-branch bodies preserves the all-whitelisted check. -/
theorem allValidListB_flatten (wl : List String) (ls : List (List Blueprint)) :
    allValidListB wl ls.flatten = allValidListListB wl ls := by
  induction ls with
  | nil => rfl
  | cons l rest ih => simp [List.flatten_cons, allValidListB_append, allValidListListB, ih]

/-- The worklist validation succeeds exactly when every widget tag reachable
from the stack is on the editor's whitelist. -/
theorem validateStack_ok_iff (stack : List Blueprint) :
    validateStack stack = .ok () ↔ allValidListB VALID_COMPONENTS stack = true := by
  induction stack using validateStack.induct with
  | case1 => simp [validateStack, allValidListB]
  | case2 rest body ih =>
      rw [validateStack, ih]
      simp [allValidListB_append, allValidListB_reverse, allValidListB, allValidB,
        Bool.and_comm]
  | case3 rest ifBody elses ih =>
      rw [validateStack, ih]
      simp [allValidListB_append, allValidListB_reverse, allValidListB_flatten,
        allValidListB, allValidB, Bool.and_assoc]
      tauto
  | case4 rest body ih =>
      rw [validateStack, ih]
      simp [allValidListB_append, allValidListB_reverse, allValidListB, allValidB]
  | case5 rest ident children hvalid ih =>
      rw [validateStack, if_pos hvalid, ih]
      simp [allValidListB_append, allValidListB_reverse, allValidListB, allValidB, hvalid]
  | case6 rest ident children hvalid =>
      rw [validateStack, if_neg hvalid]
      constructor
      · intro h; cases h
      · intro h
        simp [allValidListB, allValidB] at h
        exact absurd h.1.1 (by simpa using hvalid)

/-- Tag-name membership distributes over concatenation of blueprint lists. -/
theorem mem_bpListIdents_append (t : String) (l1 l2 : List Blueprint) :
    t ∈ bpListIdents (l1 ++ l2) ↔ t ∈ bpListIdents l1 ∨ t ∈ bpListIdents l2 := by
  induction l1 with
  | nil => simp [bpListIdents]
  | cons b rest ih => simp [bpListIdents, ih, List.mem_append, or_assoc]

/-- Reversal preserves tag-name membership. -/
theorem mem_bpListIdents_reverse (t : String) (l : List Blueprint) :
    t ∈ bpListIdents l.reverse ↔ t ∈ bpListIdents l := by
  induction l with
  | nil => simp
  | cons b rest ih =>
      simp [List.reverse_cons, mem_bpListIdents_append, bpListIdents, ih,
        List.mem_append, or_comm]

/-- Flattening preserves tag-name membership. -/
theorem mem_bpListIdents_flatten (t : String) (ls : List (List Blueprint)) :
    t ∈ bpListIdents ls.flatten ↔ t ∈ bpListListIdents ls := by
  induction ls with
  | nil => simp [bpListIdents, bpListListIdents]
  | cons l rest ih =>
      simp [List.flatten_cons, mem_bpListIdents_append, bpListListIdents, ih,
        List.mem_append]

/-- When the worklist validation aborts, the message names a widget tag that
occurs in the tree and is not on the whitelist. -/
theorem validateStack_error (stack : List Blueprint) (m : String)
    (h : validateStack stack = .error m) :
    ∃ t, t ∈ bpListIdents stack ∧
      VALID_COMPONENTS.any (fun w => w = t) = false ∧
      m = "Could not find widget `" ++ t ++ "`" := by
  induction stack using validateStack.induct with
  | case1 => rw [validateStack] at h; cases h
  | case2 rest body ih =>
      rw [validateStack] at h
      obtain ⟨t, hmem, hval, hm⟩ := ih h
      refine ⟨t, ?_, hval, hm⟩
      rw [mem_bpListIdents_append, mem_bpListIdents_reverse] at hmem
      simpa [bpListIdents, bpIdents, List.mem_append] using hmem
  | case3 rest ifBody elses ih =>
      rw [validateStack] at h
      obtain ⟨t, hmem, hval, hm⟩ := ih h
      refine ⟨t, ?_, hval, hm⟩
      rw [mem_bpListIdents_append, mem_bpListIdents_reverse, mem_bpListIdents_append,
        mem_bpListIdents_flatten] at hmem
      simpa [bpListIdents, bpIdents, List.mem_append, or_assoc] using hmem
  | case4 rest body ih =>
      rw [validateStack] at h
      obtain ⟨t, hmem, hval, hm⟩ := ih h
      refine ⟨t, ?_, hval, hm⟩
      rw [mem_bpListIdents_append, mem_bpListIdents_reverse] at hmem
      simpa [bpListIdents, bpIdents, List.mem_append] using hmem
  | case5 rest ident children hvalid ih =>
      rw [validateStack, if_pos hvalid] at h
      obtain ⟨t, hmem, hval, hm⟩ := ih h
      refine ⟨t, ?_, hval, hm⟩
      rw [mem_bpListIdents_append, mem_bpListIdents_reverse] at hmem
      simp [bpListIdents, bpIdents, List.mem_append]
      tauto
  | case6 rest ident children hvalid =>
      rw [validateStack, if_neg hvalid] at h
      refine ⟨ident, by simp [bpListIdents, bpIdents], ?_, ?_⟩
      · rw [Bool.eq_false_iff]
        exact hvalid
      · cases h
        rfl

/-- The sixteen-name whitelist asserted by claim C1 and the specification,
written out following the spec's words (for comparison against the code's
thirteen-name `VALID_COMPONENTS`). -/
def claimedWhitelist : List String :=
  ["text", "span", "border", "align", "vstack", "hstack", "zstack", "expand",
   "spacer", "position", "overflow", "canvas", "container", "padding", "row", "column"]

/-- C1 counterexample: `padding` is on the claimed sixteen-name whitelist,
so by the claim a template whose only widget is `padding` should validate;
the code's validator rejects it, because `VALID_COMPONENTS` holds only
thirteen names (no `padding`, `row`, or `column`). -/
theorem C1_counterexample :
    allValidB claimedWhitelist (.single "padding" []) = true ∧
    validateBlueprint (.single "padding" []) = .error "Could not find widget `padding`" := by
  constructor
  · simp [allValidB, allValidListB, claimedWhitelist]
  · simp [validateBlueprint, validateStack, VALID_COMPONENTS]

/-- C1 (amended): `validate_blueprint` returns `Ok(())` iff every widget
node's tag throughout the tree — component bodies, conditional branches
with their else-chains, loop bodies, and widget children, all traversed
recursively — is a member of the fixed THIRTEEN-name whitelist
`VALID_COMPONENTS` (text, span, border, align, vstack, hstack, zstack,
expand, spacer, position, overflow, canvas, container); a failing
validation reports a non-whitelisted tag occurring in the tree in its error
message, and in particular a template whose only widget is `frobnicate`
fails reporting `frobnicate`. -/
theorem C1_validate_whitelist :
    (∀ bp, validateBlueprint bp = .ok () ↔ allValidB VALID_COMPONENTS bp = true) ∧
    (∀ bp m, validateBlueprint bp = .error m →
      ∃ t, t ∈ bpIdents bp ∧ VALID_COMPONENTS.any (fun w => w = t) = false ∧
        m = "Could not find widget `" ++ t ++ "`") ∧
    validateBlueprint (.single "frobnicate" [])
      = .error "Could not find widget `frobnicate`" := by
  refine ⟨?_, ?_, ?_⟩
  · intro bp
    rw [validateBlueprint, validateStack_ok_iff]
    simp [allValidListB]
  · intro bp m h
    obtain ⟨t, hmem, hval, hm⟩ := validateStack_error [bp] m h
    exact ⟨t, by simpa [bpListIdents] using hmem, hval, hm⟩
  · simp [validateBlueprint, validateStack, VALID_COMPONENTS]

/-- Witness for C1: a `vstack` with a `text` child validates. -/
theorem C1_validate_whitelist_witness :
    validateBlueprint (.single "vstack" [.single "text" []]) = .ok () :=
  (C1_validate_whitelist.1 _).mpr (by simp [allValidB, allValidListB, VALID_COMPONENTS])

end Playground
